import Mathlib

set_option maxRecDepth 8000

/-!
Verification of the bookmarks-manager content-extraction pipeline.

The repository contains several near-duplicate serverless handlers:
* `api/analyze.js` holds three variants, called here `AnalyzeV1` (the one
  starting at line 1), `AnalyzeV2` (starting after the first separator,
  the variant with the computed reading time) and `AnalyzeV3` (the last,
  simplest variant with no AI path).
* `api/fetch-article.js` holds two variants: `FetchArticleV1` (the
  Readability-based proxy) and `FetchArticleV2` (the images/price variant).
* `src/unnamed/part_000` is `Part000` and `src/unnamed/part_001` is `Part001`
  (the oEmbed-based analyze variants).

JavaScript strings that may be `undefined`/`null` are modelled as `String`
with `""` for the absent value: every use in the source is as an operand of
`||` or as a truthiness test, where `undefined`, `null` and `""` behave
identically.  A cheerio document is modelled as a record of the query
results the handlers read from it (each field is annotated with the query
it embeds); the generic element list `elems` carries enough structure to
evaluate the price selectors before and after the junk-removal pass.
External effects (the HTTP fetch, the oEmbed fetch, the AI call, WHATWG URL
resolution, the current date) are parameters of the handler functions.
-/

/-- JavaScript `a || b` on (possibly absent) strings: the left operand wins
unless it is falsy (absent or empty). -/
def jsOr (a b : String) : String := if a = "" then b else a

/-- JavaScript `s.startsWith(pat)`, computed on the character lists. -/
def jsStartsWith (s pat : String) : Bool := pat.data.isPrefixOf s.data

/-- JavaScript `s.trim()`: leading and trailing whitespace removed. -/
def jsTrim (s : String) : String :=
  String.mk (((s.data.dropWhile Char.isWhitespace).reverse.dropWhile
    Char.isWhitespace).reverse)

/-- JavaScript `s.substring(0, n)`: the first `n` characters. -/
def jsTake (s : String) (n : Nat) : String := String.mk (s.data.take n)

/-- Splitting worker: scans the character list, cutting at each occurrence
of the (non-empty) separator; `acc` holds the current piece reversed.  The
fuel argument, initialized to the input length, makes the recursion
structural (every step consumes at least one character, so the fuel never
runs out on the initial call). -/
def splitOnListAux (sep : List Char) : Nat → List Char → List Char → List (List Char)
  | _, [], acc => [acc.reverse]
  | 0, cs, acc => [acc.reverse ++ cs]
  | fuel + 1, c :: rest, acc =>
    if sep.isPrefixOf (c :: rest) ∧ sep ≠ [] then
      acc.reverse :: splitOnListAux sep fuel (List.drop (sep.length - 1) rest) []
    else
      splitOnListAux sep fuel rest (c :: acc)

/-- JavaScript `s.split(sep)` with a string separator: pieces between
occurrences of the separator, `[s]` when it never occurs. -/
def jsSplitOn (s sep : String) : List String :=
  (splitOnListAux sep.data s.data.length s.data []).map String.mk

/-- JavaScript `s.includes(pat)` for a non-empty pattern: the split on the
pattern has more than one part exactly when the pattern occurs. -/
def jsIncludes (s pat : String) : Bool := (jsSplitOn s pat).length != 1

/-- JavaScript `s.toLowerCase()`, computed on the character list. -/
def jsToLower (s : String) : String := String.mk (s.data.map Char.toLower)

/-- One step of whitespace-run collapsing: `prevWs` records whether the
previous emitted character came from a whitespace run. -/
def collapseChars : List Char → Bool → List Char
  | [], _ => []
  | c :: rest, prevWs =>
    if c.isWhitespace then
      if prevWs then collapseChars rest true
      else ' ' :: collapseChars rest true
    else c :: collapseChars rest false

/-- JavaScript `s.replace(/\s+/g, ' ')`: every maximal whitespace run
becomes a single space. -/
def collapseWs (s : String) : String := String.mk (collapseChars s.data false)

/-- JavaScript `s.replace(pat, repl)` with a plain-string pattern: only the
first occurrence is replaced. -/
def replaceFirst (s pat repl : String) : String :=
  match jsSplitOn s pat with
  | [] => s
  | [x] => x
  | x :: y :: rest => x ++ repl ++ String.intercalate pat (y :: rest)

/-- JSON values as produced by `res.json(...)`: enough structure for the
response objects built by the handlers. -/
inductive JVal where
  | str (s : String)
  | num (n : Nat)
  | arr (xs : List JVal)
  | obj (fields : List (String × JVal))
  | nullv

/-- Short constructor for string-valued JSON fields. -/
def jstr (s : String) : JVal := JVal.str s

/-- A nullable string field (`videoEmbed: embedUrl` where `embedUrl` may be
`null`). -/
def jnullable : Option String → JVal
  | none => JVal.nullv
  | some s => JVal.str s

/-- Value of key `k` in a JavaScript object literal built from the ordered
field list `fields` (later assignments, including spread entries, win). -/
def lookupLast (fields : List (String × JVal)) (k : String) : Option JVal :=
  (List.find? (fun p => p.1 == k) fields.reverse).map (fun p => p.2)

/-- A generic document element, flattened for selector evaluation.
`underAPrice` records whether some ancestor carries class `a-price`
(needed for the descendant selector `.a-price .a-offscreen`);
`underJunk` records whether the element is, or sits inside, one of the
junk targets `script, style, nav, footer, header, aside, .ad, iframe`,
so that `$(sel).remove()` of the junk list deletes it. -/
structure Elem where
  classes : List String := []
  idAttr : String := ""
  itemprop : String := ""
  textContent : String := ""
  underAPrice : Bool := false
  underJunk : Bool := false
deriving Repr, DecidableEq

/-- An `<img>` element: the three source attributes the handlers read
(`""` when the attribute is missing). -/
structure ImgEl where
  dataSrc : String := ""
  dataOriginal : String := ""
  src : String := ""
deriving Repr, DecidableEq

/-- A cheerio-parsed document, as the record of the query results the
handlers read from it.  Text/html snapshot fields are taken at the point
the source reads them (after the junk-removal pass in every variant);
`elems` is the full element list in document order, with `underJunk`
flags so that queries made before junk removal can also be evaluated. -/
structure Doc where
  /-- Embeds the query chain on the title element, before `.trim()`. -/
  titleText : String := ""
  /-- Embeds the content attribute of the og:title meta tag. -/
  ogTitle : String := ""
  /-- Embeds the content attribute of the description-name meta tag. -/
  metaDescription : String := ""
  /-- Embeds the content attribute of the og:description meta tag. -/
  ogDescription : String := ""
  /-- Embeds the content attribute of the og:image meta tag. -/
  ogImage : String := ""
  /-- Embeds the inner HTML of the article element (absent or empty gives
  `""`, which is falsy in the source exactly like cheerio null). -/
  articleHtml : String := ""
  /-- Embeds the inner HTML of the main element. -/
  mainHtml : String := ""
  /-- Embeds the inner HTML of the body element (always a string: cheerio
  in document mode always materializes a body). -/
  bodyHtml : String := ""
  /-- Embeds the text of the body after the junk-removal pass, before the
  whitespace collapsing done by the handlers. -/
  bodyTextRaw : String := ""
  /-- Embeds the trimmed text of the first js-social-count match. -/
  starsSocial : String := ""
  /-- Embeds the trimmed text of the repo-stars-counter-star element. -/
  starsCounter : String := ""
  /-- Embeds the trimmed text of the repo-network-counter element. -/
  forksCounter : String := ""
  /-- Embeds the trimmed text of the author-span anchor. -/
  authorSpanText : String := ""
  /-- Embeds the shortDescription recovered from the ytInitialPlayerResponse
  script blob; `""` when the scan or the JSON decode fails. -/
  ytPlayerDescription : String := ""
  /-- All img elements, in document order. -/
  imgs : List ImgEl := []
  /-- All elements, in document order, for selector queries. -/
  elems : List Elem := []
deriving Repr, DecidableEq

/-- Embeds `url.startsWith('http') ? url : 'https://' + url`, the scheme
normalization shared by all variants. -/
def fullUrlOf (url : String) : String :=
  if jsStartsWith url "http" then url else "https://" ++ url

/-- Embeds `fullUrl.includes('youtube.com') || fullUrl.includes('youtu.be')`. -/
def isYoutube (fullUrl : String) : Bool :=
  jsIncludes fullUrl "youtube.com" || jsIncludes fullUrl "youtu.be"

/-- Embeds `fullUrl.includes('github.com')`. -/
def isGithub (fullUrl : String) : Bool := jsIncludes fullUrl "github.com"

/-- Outcome of the primary `fetch` as the handlers observe it: the call
either rejects (network or URL error) or yields a response with `ok`,
`status`, `statusText` and a body that cheerio parses into a `Doc`. -/
inductive FetchOutcome where
  | threw (msg : String)
  | got (ok : Bool) (status : Nat) (statusText : String) (doc : Doc)
deriving Repr, DecidableEq

/-- Outcome of the whole AI block as the handlers observe it: either some
step threw (model call failed, or the response text was unparseable even
via the balanced-brace recovery) or it produced a parsed JSON object. -/
inductive AiOutcome where
  | failure
  | success (aiData : List (String × JVal))

/-- An HTTP reply: `res.status(n).json(body)` with the body as an ordered
field list. -/
structure HttpOut where
  status : Nat
  body : List (String × JVal)

/-- oEmbed payload fields the handlers read (`""` for absent). -/
structure Oembed where
  title : String := ""
  authorName : String := ""
  thumbnailUrl : String := ""
deriving Repr, DecidableEq

/-! ## Price-selector machinery

Both `part_000` (lines 74-82) and the second `fetch-article.js` variant
(lines 186-193) run an ordered list of CSS selectors, take the first
matching element's trimmed text, and stop at the first selector whose
text is non-empty. -/

/-- The price selectors occurring in the two selector lists. -/
inductive PriceSel where
  | aPriceOffscreen
  | priceClass
  | itempropPrice
  | priceblockId
  | productPrice
deriving Repr, DecidableEq

/-- Whether an element matches a price selector. -/
def priceSelHits : PriceSel → Elem → Bool
  | .aPriceOffscreen, e => e.underAPrice && e.classes.contains "a-offscreen"
  | .priceClass, e => e.classes.contains "price"
  | .itempropPrice, e => e.itemprop == "price"
  | .priceblockId, e => e.idAttr == "priceblock_ourprice"
  | .productPrice, e => e.classes.contains "product-price"

/-- Embeds the trimmed text of the first element matching a selector; an
empty selection yields the empty string, as in cheerio. -/
def firstSelText (sel : PriceSel) (es : List Elem) : String :=
  match es.find? (priceSelHits sel) with
  | some e => jsTrim e.textContent
  | none => ""

/-- Embeds the `for (const sel of priceSelectors)` loop: the first selector
with a non-empty first-match text wins, `none` when all miss. -/
def priceLoop (sels : List PriceSel) (es : List Elem) : Option String :=
  match sels with
  | [] => none
  | s :: rest =>
    if firstSelText s es = "" then priceLoop rest es
    else some (firstSelText s es)

/-- The selector list of `part_000` (line 75). -/
def part000PriceSelectors : List PriceSel :=
  [.aPriceOffscreen, .priceClass, .itempropPrice, .priceblockId]

/-- The selector list of the second `fetch-article.js` variant (line 186):
the same four selectors followed by the product-price class. -/
def fetchArticleV2PriceSelectors : List PriceSel :=
  [.aPriceOffscreen, .priceClass, .itempropPrice, .priceblockId, .productPrice]

/-- Embeds the junk-removal pass: elements that are, or sit inside,
`script, style, nav, footer, header, aside, .ad, iframe` disappear. -/
def removeJunk (es : List Elem) : List Elem := es.filter (fun e => !e.underJunk)

/-- Embeds the body-text preparation shared by the analyze variants:
`.text().replace(/\s+/g, ' ').trim().substring(0, 15000)`. -/
def bodyTextOf (d : Doc) : String := jsTake (jsTrim (collapseWs d.bodyTextRaw)) 15000

namespace AnalyzeV1

/-- Embeds analyze.js line 54: the trimmed title-tag text, else the raw
input url (this variant consults no og:title and no oEmbed data). -/
def title (d : Doc) (url : String) : String := jsOr (jsTrim d.titleText) url

/-- Embeds analyze.js lines 57-59: description meta, else og:description,
else the empty string. -/
def originalDescription (d : Doc) : String :=
  jsOr d.metaDescription (jsOr d.ogDescription "")

/-- Embeds analyze.js lines 61-64: the og:image content, resolved against
the base when it does not start with http; a resolution failure keeps the
unresolved value (the catch block is empty). -/
def imageOf (resolve : String → Option String) (d : Doc) : String :=
  let img := d.ogImage
  if img = "" then img
  else if jsStartsWith img "http" then img
  else (resolve img).getD img

/-- Embeds analyze.js line 67: article inner HTML, else main, else body,
else the no-content placeholder. -/
def contentHtml (d : Doc) : String :=
  jsOr d.articleHtml
    (jsOr d.mainHtml (jsOr d.bodyHtml "<div>No readable content found.</div>"))

/-- Embeds analyze.js lines 31-38: the split-based video-id extraction and
embed-URL construction. -/
def embedUrlOf (fullUrl : String) : Option String :=
  if isYoutube fullUrl then
    let videoId :=
      if jsIncludes fullUrl "v=" then
        ((jsSplitOn ((jsSplitOn fullUrl "v=").getD 1 "") "&").getD 0 "")
      else ((jsSplitOn fullUrl "/").getLast?).getD ""
    if videoId = "" then none
    else some ("https://www.youtube.com/embed/" ++ videoId)
  else if jsIncludes fullUrl "vimeo.com" then
    let videoId := ((jsSplitOn fullUrl "/").getLast?).getD ""
    if videoId = "" then none
    else some ("https://player.vimeo.com/video/" ++ videoId)
  else none

/-- The URL the primary fetch is issued against: analyze.js line 16 calls
`fetch(url)` with the raw request body value; `fullUrl` is computed only
at line 27, after the fetch. -/
def fetchUrl (url : String) : String := url

/-- Embeds `userModel || "gemini-1.5-flash"` (line 73). -/
def modelName (userModel : String) : String := jsOr userModel "gemini-1.5-flash"

/-- Embeds analyze.js lines 138-141: url-substring category fallback. -/
def fallbackCategory (fullUrl : String) : String :=
  if jsIncludes fullUrl "youtube" || jsIncludes fullUrl "vimeo" then "Videos"
  else if jsIncludes fullUrl "github" || jsIncludes fullUrl "gitlab" then "Coding"
  else if jsIncludes fullUrl "amazon" || jsIncludes fullUrl "ebay" then "Shopping"
  else "Articles"

/-- Embeds the manual-fallback response object of analyze.js lines 143-157,
as the ordered field list passed to `res.json`. -/
def fallbackBody (url : String) (resolve : String → Option String)
    (d : Doc) (today : String) : List (String × JVal) :=
  let fullUrl := fullUrlOf url
  let cat := fallbackCategory fullUrl
  [("title", jstr (title d url)),
   ("summary", jstr (jsOr (originalDescription d) "No summary available.")),
   ("originalDescription", jstr (originalDescription d)),
   ("content", jstr (contentHtml d)),
   ("image", jstr (imageOf resolve d)),
   ("category", jstr cat),
   ("readingTime", jstr "5 min"),
   ("difficulty", jstr "Medium"),
   ("tags", JVal.arr [jstr (jsToLower cat)]),
   ("metadata", JVal.obj []),
   ("videoEmbed", jnullable (embedUrlOf fullUrl)),
   ("date", jstr today),
   ("usedModel", jstr "Manual Fallback")]

/-- Embeds the AI-success response object of analyze.js lines 121-130: the
scraped fields, then the spread of the parsed AI object, then usedModel. -/
def aiBody (url userModel : String) (resolve : String → Option String)
    (d : Doc) (today : String) (aiData : List (String × JVal)) :
    List (String × JVal) :=
  let fullUrl := fullUrlOf url
  [("title", jstr (title d url)),
   ("content", jstr (contentHtml d)),
   ("image", jstr (imageOf resolve d)),
   ("videoEmbed", jnullable (embedUrlOf fullUrl)),
   ("originalDescription", jstr (originalDescription d)),
   ("date", jstr today)]
  ++ aiData
  ++ [("usedModel", jstr (modelName userModel))]

/-- Embeds the first analyze.js handler (lines 4-163).  The fetch, the URL
resolver and the AI block are external calls passed in as parameters; a
non-ok fetch response throws at line 22 and is converted by the outer
catch into a 500 reply. -/
def handler (method url apiKey userModel : String) (fetchRes : FetchOutcome)
    (resolve : String → Option String) (ai : AiOutcome) (today : String) :
    HttpOut :=
  if method ≠ "POST" then ⟨405, [("error", jstr "Method not allowed")]⟩
  else if url = "" then ⟨400, [("error", jstr "URL is required")]⟩
  else
    match fetchRes with
    | .threw msg =>
      ⟨500, [("error", jstr "Failed to analyze URL"), ("details", jstr msg)]⟩
    | .got ok _status statusText d =>
      if !ok then
        ⟨500, [("error", jstr "Failed to analyze URL"),
               ("details", jstr ("Failed to fetch URL: " ++ statusText))]⟩
      else if apiKey ≠ "" then
        match ai with
        | .success aiData => ⟨200, aiBody url userModel resolve d today aiData⟩
        | .failure => ⟨200, fallbackBody url resolve d today⟩
      else ⟨200, fallbackBody url resolve d today⟩

end AnalyzeV1

namespace AnalyzeV2

/-- Embeds analyze.js lines 230-232 (second variant): trimmed title-tag
text first, then og:title, then the raw url. -/
def title (d : Doc) (url : String) : String :=
  jsOr (jsTrim d.titleText) (jsOr d.ogTitle url)

/-- Embeds `bodyText.split(' ').length` (line 308) on the collapsed,
trimmed, length-capped body text. -/
def wordCount (bodyText : String) : Nat := (jsSplitOn bodyText " ").length

/-- Embeds `Math.max(1, Math.ceil(wordCount / 200))` (line 309): ceiling
division by the fixed 200 words-per-minute rate, floored at one minute. -/
def readTimeMinutes (wc : Nat) : Nat := max 1 ((wc + 199) / 200)

/-- Embeds the readingTime string of the manual fallback (line 335). -/
def readingTime (wc : Nat) : String := toString (readTimeMinutes wc) ++ " min"

end AnalyzeV2

namespace AnalyzeV3

/-- Embeds analyze.js line 395 (third variant): article inner HTML, else
main, else body; this variant appends no placeholder. -/
def contentHtml (d : Doc) : String :=
  jsOr d.articleHtml (jsOr d.mainHtml d.bodyHtml)

end AnalyzeV3

/-- A conditional field assignment `if (x) obj.k = x`: contributes the
entry only when the value is truthy. -/
def optField (k v : String) : List (String × JVal) :=
  if v = "" then [] else [(k, jstr v)]

namespace Part000

/-- Embeds part_000 line 107: oEmbed title, else og:title, else trimmed
title-tag text, else the raw url. -/
def title (ytData : Oembed) (d : Doc) (url : String) : String :=
  jsOr ytData.title (jsOr d.ogTitle (jsOr (jsTrim d.titleText) url))

/-- Embeds part_000 line 108: og:description, else description meta, else
the empty string. -/
def originalDescription (d : Doc) : String :=
  jsOr d.ogDescription (jsOr d.metaDescription "")

/-- Embeds part_000 lines 109-110: oEmbed thumbnail, else og:image,
resolved when not absolute; a resolution failure keeps the old value. -/
def imageOf (resolve : String → Option String) (ytData : Oembed) (d : Doc) :
    String :=
  let img := jsOr ytData.thumbnailUrl d.ogImage
  if img = "" then img
  else if jsStartsWith img "http" then img
  else (resolve img).getD img

/-- Embeds part_000 line 112: article, else main, else body inner HTML,
else the no-content placeholder. -/
def contentHtml (d : Doc) : String :=
  jsOr d.articleHtml
    (jsOr d.mainHtml (jsOr d.bodyHtml "<div>No readable content found.</div>"))

/-- The URL the primary fetch is issued against: part_000 computes
`fullUrl` at line 16 and calls `fetch(fullUrl)` at line 36, so the
normalized URL is fetched. -/
def fetchUrl (url : String) : String := fullUrlOf url

/-- Embeds part_000 lines 84-92, the embed-URL resolution.  `ytIdMatch`
models the library regex match that captures the video id from the
recognized YouTube URL shapes, `none` when the regex does not match. -/
def embedUrlOf (ytIdMatch : String → Option String) (fullUrl : String) :
    Option String :=
  if isYoutube fullUrl then
    match ytIdMatch fullUrl with
    | some vid =>
      if vid = "" then none
      else some ("https://www.youtube.com/embed/" ++ vid)
    | none => none
  else if jsIncludes fullUrl "vimeo.com" then
    let vid := ((jsSplitOn fullUrl "/").getLast?).getD ""
    if vid = "" then none
    else some ("https://player.vimeo.com/video/" ++ vid)
  else none

/-- Embeds part_000 lines 48-82, the direct metadata scraping: GitHub
fields when the url contains github.com, the oEmbed author and platform
when it is a YouTube url, and the price-selector loop, which runs
unconditionally over the document as it is before the junk-removal pass
(the cleanup happens only at line 105). -/
def scrapedMetadata (fullUrl : String) (ytData : Oembed) (d : Doc) :
    List (String × JVal) :=
  (if isGithub fullUrl then
    optField "stars" (jsOr d.starsSocial d.starsCounter)
    ++ optField "forks" d.forksCounter
    ++ optField "author" d.authorSpanText
    ++ [("platform", jstr "GitHub")]
  else [])
  ++ (if isYoutube fullUrl then
    optField "author" ytData.authorName ++ [("platform", jstr "YouTube")]
  else [])
  ++ (match priceLoop part000PriceSelectors d.elems with
    | some p => [("price", jstr p)]
    | none => [])

/-- Embeds part_000 lines 196-199: url-substring category fallback. -/
def fallbackCategory (fullUrl : String) : String :=
  if isYoutube fullUrl || jsIncludes fullUrl "vimeo" then "Videos"
  else if jsIncludes fullUrl "github" || jsIncludes fullUrl "gitlab" then "Coding"
  else if jsIncludes fullUrl "amazon" || jsIncludes fullUrl "ebay" then "Shopping"
  else "Articles"

/-- Embeds the manual-fallback response object of part_000 lines 201-215:
the readingTime field is the constant string and the metadata field is the
scraped metadata object. -/
def fallbackBody (url : String) (resolve : String → Option String)
    (ytIdMatch : String → Option String) (ytData : Oembed) (d : Doc)
    (today : String) : List (String × JVal) :=
  let fullUrl := fullUrlOf url
  let cat := fallbackCategory fullUrl
  [("title", jstr (title ytData d url)),
   ("summary", jstr (jsOr (originalDescription d) "No summary available.")),
   ("originalDescription", jstr (originalDescription d)),
   ("content", jstr (contentHtml d)),
   ("image", jstr (imageOf resolve ytData d)),
   ("category", jstr cat),
   ("readingTime", jstr "5 min"),
   ("difficulty", jstr "Medium"),
   ("tags", JVal.arr [jstr (jsToLower cat)]),
   ("metadata", JVal.obj (scrapedMetadata fullUrl ytData d)),
   ("videoEmbed", jnullable (embedUrlOf ytIdMatch fullUrl)),
   ("date", jstr today),
   ("usedModel", jstr "Manual Fallback")]

/-- Embeds the AI-success response object of part_000 lines 179-188: the
scraped fields, then the spread of the parsed AI object, then usedModel. -/
def aiBody (url userModel : String) (resolve : String → Option String)
    (ytIdMatch : String → Option String) (ytData : Oembed) (d : Doc)
    (today : String) (aiData : List (String × JVal)) : List (String × JVal) :=
  let fullUrl := fullUrlOf url
  [("title", jstr (title ytData d url)),
   ("content", jstr (contentHtml d)),
   ("image", jstr (imageOf resolve ytData d)),
   ("videoEmbed", jnullable (embedUrlOf ytIdMatch fullUrl)),
   ("originalDescription", jstr (originalDescription d)),
   ("date", jstr today)]
  ++ aiData
  ++ [("usedModel", jstr (AnalyzeV1.modelName userModel))]

/-- Embeds the part_000 handler (lines 4-221).  `oembedRes` is the outcome
of the auxiliary oEmbed fetch, issued only for YouTube urls and degrading
to the empty object on failure; a non-ok primary fetch throws at line 43
and becomes a 500 reply in the outer catch. -/
def handler (method url apiKey userModel : String) (oembedRes : Option Oembed)
    (fetchRes : FetchOutcome) (resolve : String → Option String)
    (ytIdMatch : String → Option String) (ai : AiOutcome) (today : String) :
    HttpOut :=
  if method ≠ "POST" then ⟨405, [("error", jstr "Method not allowed")]⟩
  else if url = "" then ⟨400, [("error", jstr "URL is required")]⟩
  else
    let fullUrl := fullUrlOf url
    let ytData : Oembed := if isYoutube fullUrl then oembedRes.getD {} else {}
    match fetchRes with
    | .threw msg =>
      ⟨500, [("error", jstr "Failed to analyze URL"), ("details", jstr msg)]⟩
    | .got ok _status statusText d =>
      if !ok then
        ⟨500, [("error", jstr "Failed to analyze URL"),
               ("details", jstr ("Failed to fetch URL: " ++ statusText))]⟩
      else if apiKey ≠ "" then
        match ai with
        | .success aiData =>
          ⟨200, aiBody url userModel resolve ytIdMatch ytData d today aiData⟩
        | .failure => ⟨200, fallbackBody url resolve ytIdMatch ytData d today⟩
      else ⟨200, fallbackBody url resolve ytIdMatch ytData d today⟩

end Part000

namespace Part001

/-- Embeds part_001 lines 80-83: oEmbed title, else og:title, else trimmed
title-tag text, else the raw url. -/
def title (ytTitle : String) (d : Doc) (url : String) : String :=
  jsOr ytTitle (jsOr d.ogTitle (jsOr (jsTrim d.titleText) url))

/-- The URL the primary fetch is issued against: part_001 computes
`fullUrl` at line 16 and calls `fetch(fullUrl)` at line 38. -/
def fetchUrl (url : String) : String := fullUrlOf url

end Part001

namespace FetchArticleV1

/-- Result of `new Readability(document).parse()` as the handler reads it. -/
structure Article where
  title : String := ""
  textContent : String := ""
deriving Repr, DecidableEq

/-- Embeds `cleanContent.split(/\s+/).length`: splitting on whitespace
runs equals splitting the collapsed string on single spaces. -/
def splitWsCount (s : String) : Nat := (jsSplitOn (collapseWs s) " ").length

/-- Embeds the first fetch-article.js handler (lines 16-62).  `hostname`
is the value of `new URL(url).hostname`; `article` is the Readability
parse result, `none` when it returns null.  A non-ok fetch response is
answered directly with the upstream status code (lines 30-33); a rejected
fetch or a parser exception lands in the catch block (500). -/
def handler (url hostname : String) (fetchRes : FetchOutcome)
    (article : Option Article) : HttpOut :=
  if url = "" then ⟨400, [("error", jstr "URL parameter is missing.")]⟩
  else
    match fetchRes with
    | .threw _ =>
      ⟨500, [("error", jstr "Internal server error during content processing.")]⟩
    | .got ok status statusText _d =>
      if !ok then
        ⟨status, [("error", jstr ("Failed to fetch URL: " ++ statusText))]⟩
      else
        match article with
        | none => ⟨404, [("error", jstr "Could not extract main article content.")]⟩
        | some a =>
          if a.textContent = "" then
            ⟨404, [("error", jstr "Could not extract main article content.")]⟩
          else
            let cleanContent := jsTrim a.textContent
            ⟨200, [("title", jstr (jsOr a.title (replaceFirst hostname "www." ""))),
                   ("content", jstr cleanContent),
                   ("wordCount", JVal.num (splitWsCount cleanContent))]⟩

end FetchArticleV1

namespace FetchArticleV2

/-- Embeds fetch-article.js (second variant) lines 110-131: for YouTube
urls the player-response shortDescription, else og:description, else the
description meta, else the empty string. -/
def fullDescription (fullUrl : String) (d : Doc) : String :=
  let ytDesc := if isYoutube fullUrl then d.ytPlayerDescription else ""
  jsOr ytDesc (jsOr d.ogDescription (jsOr d.metaDescription ""))

/-- Embeds `$el.attr('data-src') || $el.attr('data-original') || $el.attr('src')`. -/
def realSrcOf (im : ImgEl) : String :=
  jsOr im.dataSrc (jsOr im.dataOriginal im.src)

/-- One iteration of the image-collection loop (lines 138-155): skip
absent and data-URL sources, resolve against the base (a failure skips the
element), drop urls containing icon/logo/avatar markers, and push while
fewer than five candidates are held.  No equality check is performed. -/
def collectStep (resolve : String → Option String) (acc : List String)
    (im : ImgEl) : List String :=
  let rs := realSrcOf im
  if rs = "" then acc
  else if jsStartsWith rs "data:" then acc
  else
    match resolve rs with
    | none => acc
    | some absUrl =>
      if jsIncludes absUrl "icon" || jsIncludes absUrl "logo"
          || jsIncludes absUrl "avatar" then acc
      else if acc.length < 5 then acc ++ [absUrl] else acc

/-- The collected candidate images, in document order. -/
def collectImages (resolve : String → Option String) (imgs : List ImgEl) :
    List String :=
  imgs.foldl (collectStep resolve) []

/-- Embeds lines 161-162: oEmbed thumbnail, else og:image, resolved when
not absolute. -/
def imageOf (resolve : String → Option String) (ytData : Oembed) (d : Doc) :
    String :=
  let img := jsOr ytData.thumbnailUrl d.ogImage
  if img = "" then img
  else if jsStartsWith img "http" then img
  else (resolve img).getD img

/-- Embeds lines 164-167: when the primary image is non-empty it is placed
first, candidates equal to it are filtered out, and the list is capped at
six entries; otherwise the collected list is returned as is. -/
def productImages (image : String) (collected : List String) : List String :=
  if image = "" then collected
  else (image :: collected.filter (fun u => u != image)).take 6

/-- Embeds line 160: oEmbed title, else og:title, else trimmed title-tag
text, else the raw url. -/
def title (ytData : Oembed) (d : Doc) (url : String) : String :=
  jsOr ytData.title (jsOr d.ogTitle (jsOr (jsTrim d.titleText) url))

/-- Embeds lines 169-193, the direct metadata scraping: GitHub and
YouTube fields as in part_000, and the five-selector price loop, which in
this variant runs after the junk-removal pass (line 158). -/
def scrapedMetadata (fullUrl : String) (ytData : Oembed) (d : Doc) :
    List (String × JVal) :=
  (if isGithub fullUrl then
    optField "stars" (jsOr d.starsSocial d.starsCounter)
    ++ optField "forks" d.forksCounter
    ++ optField "author" d.authorSpanText
    ++ [("platform", jstr "GitHub")]
  else [])
  ++ (if isYoutube fullUrl then
    optField "author" ytData.authorName ++ [("platform", jstr "YouTube")]
  else [])
  ++ (match priceLoop fetchArticleV2PriceSelectors (removeJunk d.elems) with
    | some p => [("price", jstr p)]
    | none => [])

/-- Embeds line 205: article, else main, else body inner HTML, else the
no-content placeholder. -/
def contentHtml (d : Doc) : String :=
  jsOr d.articleHtml
    (jsOr d.mainHtml (jsOr d.bodyHtml "<div>No readable content found.</div>"))

/-- Embeds lines 285-288: url-substring category fallback (this variant
checks only github, not gitlab). -/
def fallbackCategory (fullUrl : String) : String :=
  if isYoutube fullUrl || jsIncludes fullUrl "vimeo" then "Videos"
  else if jsIncludes fullUrl "github" then "Coding"
  else if jsIncludes fullUrl "amazon" || jsIncludes fullUrl "ebay" then "Shopping"
  else "Articles"

/-- Embeds the summary expression of line 292: the concatenation
`fullDescription.substring(0, 200) + "..."` is evaluated first (plus binds
tighter than the or), and only then the or against the default string. -/
def fallbackSummary (fullDesc : String) : String :=
  jsOr (jsTake fullDesc 200 ++ "...") "No summary available."

/-- Embeds the manual-fallback response object of lines 290-306, with the
images array of collected candidates. -/
def fallbackBody (url : String) (resolve : String → Option String)
    (ytIdMatch : String → Option String) (ytData : Oembed) (d : Doc)
    (today : String) : List (String × JVal) :=
  let fullUrl := fullUrlOf url
  let cat := fallbackCategory fullUrl
  let fullDesc := fullDescription fullUrl d
  let image := imageOf resolve ytData d
  let images := productImages image (collectImages resolve d.imgs)
  [("title", jstr (title ytData d url)),
   ("summary", jstr (fallbackSummary fullDesc)),
   ("originalDescription", jstr fullDesc),
   ("content", jstr (contentHtml d)),
   ("image", jstr image),
   ("images", JVal.arr (images.map jstr)),
   ("category", jstr cat),
   ("readingTime", jstr "5 min"),
   ("difficulty", jstr "Medium"),
   ("tags", JVal.arr [jstr (jsToLower cat)]),
   ("specifications", JVal.obj []),
   ("metadata", JVal.obj (scrapedMetadata fullUrl ytData d)),
   ("videoEmbed", jnullable (Part000.embedUrlOf ytIdMatch fullUrl)),
   ("date", jstr today),
   ("usedModel", jstr "Manual Fallback")]

/-- Embeds the AI-success response object of lines 267-277. -/
def aiBody (url userModel : String) (resolve : String → Option String)
    (ytIdMatch : String → Option String) (ytData : Oembed) (d : Doc)
    (today : String) (aiData : List (String × JVal)) : List (String × JVal) :=
  let fullUrl := fullUrlOf url
  let fullDesc := fullDescription fullUrl d
  let image := imageOf resolve ytData d
  let images := productImages image (collectImages resolve d.imgs)
  [("title", jstr (title ytData d url)),
   ("content", jstr (contentHtml d)),
   ("image", jstr image),
   ("images", JVal.arr (images.map jstr)),
   ("videoEmbed", jnullable (Part000.embedUrlOf ytIdMatch fullUrl)),
   ("originalDescription", jstr fullDesc),
   ("date", jstr today)]
  ++ aiData
  ++ [("usedModel", jstr (AnalyzeV1.modelName userModel))]

/-- The URL the primary fetch is issued against: this variant computes
`fullUrl` at line 77 and calls `fetch(fullUrl)` at line 97. -/
def fetchUrl (url : String) : String := fullUrlOf url

/-- Embeds the second fetch-article.js handler (lines 65-312). -/
def handler (method url apiKey userModel : String) (oembedRes : Option Oembed)
    (fetchRes : FetchOutcome) (resolve : String → Option String)
    (ytIdMatch : String → Option String) (ai : AiOutcome) (today : String) :
    HttpOut :=
  if method ≠ "POST" then ⟨405, [("error", jstr "Method not allowed")]⟩
  else if url = "" then ⟨400, [("error", jstr "URL is required")]⟩
  else
    let fullUrl := fullUrlOf url
    let ytData : Oembed := if isYoutube fullUrl then oembedRes.getD {} else {}
    match fetchRes with
    | .threw msg =>
      ⟨500, [("error", jstr "Failed to analyze URL"), ("details", jstr msg)]⟩
    | .got ok _status statusText d =>
      if !ok then
        ⟨500, [("error", jstr "Failed to analyze URL"),
               ("details", jstr ("Failed to fetch URL: " ++ statusText))]⟩
      else if apiKey ≠ "" then
        match ai with
        | .success aiData =>
          ⟨200, aiBody url userModel resolve ytIdMatch ytData d today aiData⟩
        | .failure => ⟨200, fallbackBody url resolve ytIdMatch ytData d today⟩
      else ⟨200, fallbackBody url resolve ytIdMatch ytData d today⟩

end FetchArticleV2

/-! ## Definitions following the claim wording

These definitions are written from the words of the claims under review
(never from the source), to be compared with the embeddings above. -/

/-- Follows the words of claim C4: the ordered fallback chain oEmbed
title, then og:title meta content, then trimmed title-element text, then
the raw input URL string, first non-empty value winning. -/
def claimedTitleChain (oembedTitle ogTitle titleTagText url : String) : String :=
  jsOr oembedTitle (jsOr ogTitle (jsOr (jsTrim titleTagText) url))

/-- Follows the words of claim C10: the price obtained by running the four
selectors listed in the claim, in order, over the sanitized DOM, taking
the first selector whose first match has non-empty trimmed text. -/
def claimedSanitizedPrice (es : List Elem) : Option String :=
  priceLoop part000PriceSelectors (removeJunk es)

/-! ## Concrete documents used by counterexamples and witnesses -/

/-- Two img elements with the same source URL. -/
def dupImgs : List ImgEl :=
  [{ src := "https://x.example/a.png" }, { src := "https://x.example/a.png" }]

/-- A price element sitting inside a nav bar (removed by sanitization)
followed by a price element in the main content. -/
def navPriceElems : List Elem :=
  [{ classes := ["price"], textContent := "$1", underJunk := true },
   { classes := ["price"], textContent := "$2" }]

/-- An identity-like resolver: models WHATWG resolution of URLs that are
already absolute, which returns them unchanged. -/
def idResolve : String → Option String := fun s => some s

/-- A regex oracle that never matches, for documents where the video-id
pattern is irrelevant. -/
def noMatch : String → Option String := fun _ => none

/-! ## Helper lemmas -/

theorem jsOr_ne_empty (a b : String) (h : b ≠ "") : jsOr a b ≠ "" := by
  unfold jsOr
  split
  · exact h
  · assumption

theorem jsOr_of_left_empty (a b : String) (h : a = "") : jsOr a b = b := by
  simp [jsOr, h]

theorem findq_append_of_some {α : Type} (p : α → Bool) {l₁ l₂ : List α}
    {a : α} (h : List.find? p l₁ = some a) :
    List.find? p (l₁ ++ l₂) = some a := by
  induction l₁ with
  | nil => simp [List.find?] at h
  | cons x xs ih =>
    by_cases hp : p x
    · rw [List.find?_cons_of_pos _ hp] at h
      rw [List.cons_append, List.find?_cons_of_pos _ hp]
      exact h
    · rw [List.find?_cons_of_neg _ (by simpa using hp)] at h
      rw [List.cons_append, List.find?_cons_of_neg _ (by simpa using hp)]
      exact ih h

theorem lookupLast_concat (xs : List (String × JVal)) (k : String) (v : JVal) :
    lookupLast (xs ++ [(k, v)]) k = some v := by
  unfold lookupLast
  rw [List.reverse_append]
  simp [List.find?]

theorem lookupLast_spread (base ai : List (String × JVal)) (um : JVal)
    (k : String) (w : JVal) (hk : k ≠ "usedModel")
    (h : lookupLast ai k = some w) :
    lookupLast (base ++ ai ++ [("usedModel", um)]) k = some w := by
  unfold lookupLast at h ⊢
  rcases Option.map_eq_some'.mp h with ⟨pr, hf, hv⟩
  rw [List.reverse_append, List.reverse_append]
  simp only [List.reverse_singleton, List.singleton_append]
  rw [List.find?_cons_of_neg _
    (by simp only [beq_iff_eq]; exact fun hc => hk hc.symm)]
  rw [findq_append_of_some _ hf]
  simp [hv]

theorem lookupLast_eq_none_iff (xs : List (String × JVal)) (k : String) :
    lookupLast xs k = none ↔ ∀ p ∈ xs, p.1 ≠ k := by
  unfold lookupLast
  simp [List.find?_eq_none]

theorem lookupLast_append_of_right_none (xs ys : List (String × JVal))
    (k : String) (hy : lookupLast ys k = none) :
    lookupLast (xs ++ ys) k = lookupLast xs k := by
  unfold lookupLast at *
  rw [List.reverse_append]
  rw [List.find?_append]
  rw [Option.map_eq_none'.mp hy]
  simp

theorem mem_optField {p : String × JVal} {k v : String}
    (h : p ∈ optField k v) : p.1 = k := by
  unfold optField at h
  split at h
  · simp at h
  · simp at h
    rw [h]

theorem jsOr_of_left_ne (a b : String) (h : a ≠ "") : jsOr a b = a := by
  simp [jsOr, h]

/-! ## Claim C1: status of upstream fetch failures -/

/-- C1 (counterexample): the first analyze.js handler maps an upstream 404
to a 500 reply (the non-ok response throws at line 22 and the outer catch
answers 500 at line 161), so the claim that the handler mirrors the
upstream status and never answers 500 on a fetch failure is false. -/
theorem C1_counterexample :
    (AnalyzeV1.handler "POST" "https://x.example" "" "" (.got false 404 "Not Found" {})
        idResolve .failure "1/1/2026").status = 500 ∧
    (500 : Nat) ≠ 404 :=
  ⟨rfl, by decide⟩

/-- C1 (amended): only the Readability-based fetch-article handler mirrors
the upstream non-2xx status code, with an error field in the body; the
analyze.js handler instead answers 500 with an error field on every
upstream non-2xx response. -/
theorem C1_status_mirroring_amended :
    (∀ (url hostname statusText : String) (status : Nat) (d : Doc)
        (article : Option FetchArticleV1.Article), url ≠ "" →
      (FetchArticleV1.handler url hostname (.got false status statusText d) article).status
          = status ∧
      lookupLast (FetchArticleV1.handler url hostname (.got false status statusText d)
          article).body "error"
        = some (jstr ("Failed to fetch URL: " ++ statusText))) ∧
    (∀ (url apiKey userModel statusText today : String) (status : Nat) (d : Doc)
        (resolve : String → Option String) (ai : AiOutcome), url ≠ "" →
      (AnalyzeV1.handler "POST" url apiKey userModel (.got false status statusText d)
          resolve ai today).status = 500 ∧
      lookupLast (AnalyzeV1.handler "POST" url apiKey userModel
          (.got false status statusText d) resolve ai today).body "error"
        = some (jstr "Failed to analyze URL")) := by
  constructor
  · intro url hostname statusText status d article hurl
    have he : FetchArticleV1.handler url hostname (.got false status statusText d) article
        = ⟨status, [("error", jstr ("Failed to fetch URL: " ++ statusText))]⟩ := by
      simp [FetchArticleV1.handler, hurl]
    rw [he]
    exact ⟨rfl, rfl⟩
  · intro url apiKey userModel statusText today status d resolve ai hurl
    have he : AnalyzeV1.handler "POST" url apiKey userModel
        (.got false status statusText d) resolve ai today
        = ⟨500, [("error", jstr "Failed to analyze URL"),
                 ("details", jstr ("Failed to fetch URL: " ++ statusText))]⟩ := by
      simp [AnalyzeV1.handler, hurl]
    rw [he]
    exact ⟨rfl, rfl⟩

/-- C1 (witness): the amended statement at a concrete upstream 404. -/
theorem C1_amended_witness :
    ("https://x.example" : String) ≠ "" ∧
    (FetchArticleV1.handler "https://x.example" "x.example"
        (.got false 404 "Not Found" {}) none).status = 404 :=
  ⟨by decide,
   (C1_status_mirroring_amended.1 "https://x.example" "x.example" "Not Found" 404 {}
     none (by decide)).1⟩

/-! ## Claim C3: URL normalization before the fetch -/

/-- C3 (counterexample): the first analyze.js handler issues its primary
fetch against the raw input string (line 16); the normalized URL is
computed only afterwards (line 27), so on the scheme-less input of
Scenario A the fetched URL is not the https-prefixed one. -/
theorem C3_counterexample :
    AnalyzeV1.fetchUrl "example.com/post" = "example.com/post" ∧
    fullUrlOf "example.com/post" = "https://example.com/post" ∧
    AnalyzeV1.fetchUrl "example.com/post" ≠ fullUrlOf "example.com/post" :=
  ⟨rfl, by decide, by decide⟩

/-- C3 (amended): the oEmbed-based handlers (part_000, part_001 and the
second fetch-article.js variant) normalize first and issue the primary
fetch against the normalized absolute URL, and normalization prepends
https:// exactly when the input does not already start with http; the
analyze.js variants fetch the raw input instead. -/
theorem C3_normalized_fetch_amended :
    (∀ s : String, Part000.fetchUrl s = fullUrlOf s) ∧
    (∀ s : String, Part001.fetchUrl s = fullUrlOf s) ∧
    (∀ s : String, FetchArticleV2.fetchUrl s = fullUrlOf s) ∧
    (∀ s : String, ¬ jsStartsWith s "http" → fullUrlOf s = "https://" ++ s) := by
  refine ⟨fun s => rfl, fun s => rfl, fun s => rfl, fun s h => ?_⟩
  simp [fullUrlOf, h]

/-- C3 (witness): the amended statement at the Scenario A input. -/
theorem C3_amended_witness :
    ¬ jsStartsWith "example.com/post" "http" ∧
    fullUrlOf "example.com/post" = "https://example.com/post" :=
  ⟨by decide, C3_normalized_fetch_amended.2.2.2 "example.com/post" (by decide)⟩

/-! ## Claim C6: reader-content selection and the placeholder -/

/-- C6 (counterexample): the third analyze.js variant (line 395) has no
placeholder in its content chain, so a document with empty article, main
and body inner HTML yields an empty content value, not the placeholder. -/
theorem C6_counterexample :
    AnalyzeV3.contentHtml {} = "" ∧
    AnalyzeV3.contentHtml {} ≠ "<div>No readable content found.</div>" :=
  ⟨rfl, by decide⟩

/-- C6 (amended): in the variants that append the placeholder (analyze.js
line 67, part_000 line 112, fetch-article.js line 205) the content is the
article inner HTML when non-empty, else main, else body, and is never
empty, degrading to the placeholder when all three are missing; the third
analyze.js variant omits the placeholder and can produce empty content. -/
theorem C6_content_placeholder_amended :
    ∀ d : Doc,
      AnalyzeV1.contentHtml d ≠ "" ∧
      Part000.contentHtml d ≠ "" ∧
      FetchArticleV2.contentHtml d ≠ "" ∧
      (d.articleHtml ≠ "" → AnalyzeV1.contentHtml d = d.articleHtml) ∧
      (d.articleHtml = "" → d.mainHtml ≠ "" → AnalyzeV1.contentHtml d = d.mainHtml) ∧
      (d.articleHtml = "" → d.mainHtml = "" → d.bodyHtml ≠ "" →
        AnalyzeV1.contentHtml d = d.bodyHtml) ∧
      (d.articleHtml = "" → d.mainHtml = "" → d.bodyHtml = "" →
        AnalyzeV1.contentHtml d = "<div>No readable content found.</div>") := by
  intro d
  refine ⟨?_, ?_, ?_, ?_, ?_, ?_, ?_⟩
  · exact jsOr_ne_empty _ _ (jsOr_ne_empty _ _ (jsOr_ne_empty _ _ (by decide)))
  · exact jsOr_ne_empty _ _ (jsOr_ne_empty _ _ (jsOr_ne_empty _ _ (by decide)))
  · exact jsOr_ne_empty _ _ (jsOr_ne_empty _ _ (jsOr_ne_empty _ _ (by decide)))
  · intro h; simp [AnalyzeV1.contentHtml, jsOr, h]
  · intro h1 h2; simp [AnalyzeV1.contentHtml, jsOr, h1, h2]
  · intro h1 h2 h3; simp [AnalyzeV1.contentHtml, jsOr, h1, h2, h3]
  · intro h1 h2 h3; simp [AnalyzeV1.contentHtml, jsOr, h1, h2, h3]

/-- C6 (witness): the amended statement at the all-empty document. -/
theorem C6_amended_witness :
    ({} : Doc).articleHtml = "" ∧ ({} : Doc).mainHtml = "" ∧
    ({} : Doc).bodyHtml = "" ∧
    AnalyzeV1.contentHtml {} = "<div>No readable content found.</div>" :=
  ⟨rfl, rfl, rfl, (C6_content_placeholder_amended {}).2.2.2.2.2.2 rfl rfl rfl⟩

/-! ## Claim C7: reading time in the manual fallback -/

/-- C7 (counterexample): the manual fallback of part_000 (lines 201-215)
answers the constant reading time of five minutes; on a one-word body the
formula of the claim gives one minute, so the claim that the manual
fallback computes the formula is false for this handler. -/
theorem C7_counterexample :
    lookupLast (Part000.fallbackBody "https://example.com" idResolve noMatch {}
        { bodyTextRaw := "hello" } "1/1/2026") "readingTime" = some (jstr "5 min") ∧
    AnalyzeV2.readingTime (AnalyzeV2.wordCount (bodyTextOf { bodyTextRaw := "hello" }))
      = "1 min" ∧
    ("5 min" : String) ≠ "1 min" :=
  ⟨rfl, by decide, by decide⟩

/-- C7 (amended): in the analyze.js variant that computes it (line 309),
the manual-fallback reading time is `max 1 (ceil (wordCount / 200))`
minutes; it is non-decreasing in the word count and at least one minute;
the oEmbed-based variants answer the constant five-minute string instead. -/
theorem C7_reading_time_amended :
    ∀ w1 w2 : Nat, w1 ≤ w2 →
      AnalyzeV2.readTimeMinutes w1 ≤ AnalyzeV2.readTimeMinutes w2 ∧
      1 ≤ AnalyzeV2.readTimeMinutes w1 ∧
      AnalyzeV2.readingTime w1 = toString (max 1 ((w1 + 199) / 200)) ++ " min" := by
  intro w1 w2 h
  refine ⟨?_, ?_, rfl⟩
  · unfold AnalyzeV2.readTimeMinutes
    exact max_le_max le_rfl (Nat.div_le_div_right (Nat.add_le_add_right h 199))
  · unfold AnalyzeV2.readTimeMinutes
    exact le_max_left 1 _

/-- C7 (witness): the amended statement at concrete word counts. -/
theorem C7_amended_witness :
    (100 : Nat) ≤ 300 ∧
    AnalyzeV2.readTimeMinutes 100 ≤ AnalyzeV2.readTimeMinutes 300 :=
  ⟨by decide, (C7_reading_time_amended 100 300 (by decide)).1⟩

/-! ## Claim C9: the unreachable summary default -/

/-- C9 (confirmed): in the manual fallback of the second fetch-article.js
variant (line 292) the concatenation is evaluated before the or, so the
summary always equals the 200-character description cut followed by the
ellipsis; the default summary branch is unreachable, and an empty
description yields the bare ellipsis string. -/
theorem C9_summary_suffix :
    FetchArticleV2.fallbackSummary "" = "..." ∧
    (∀ s : String, FetchArticleV2.fallbackSummary s = jsTake s 200 ++ "...") ∧
    (∀ (url today : String) (resolve ytIdMatch : String → Option String)
        (ytData : Oembed) (d : Doc),
      lookupLast (FetchArticleV2.fallbackBody url resolve ytIdMatch ytData d today)
          "summary"
        = some (jstr (FetchArticleV2.fallbackSummary
            (FetchArticleV2.fullDescription (fullUrlOf url) d)))) := by
  refine ⟨rfl, ?_, ?_⟩
  · intro s
    unfold FetchArticleV2.fallbackSummary
    apply jsOr_of_left_ne
    intro hc
    have hl := congrArg String.length hc
    simp [String.length_append] at hl
    exact absurd hl.2 (by decide)
  · intro url today resolve ytIdMatch ytData d
    rfl

/-! ## Claim C4: title fallback chain -/

/-- C4 (counterexample): the second analyze.js variant (lines 230-232)
consults the title tag before og:title, so on a document carrying both the
claimed chain (og:title before title text when no oEmbed data exists)
gives a different answer than the code. -/
theorem C4_counterexample :
    AnalyzeV2.title { titleText := "HTML Title", ogTitle := "OG Title" }
        "https://x.example" = "HTML Title" ∧
    claimedTitleChain "" "OG Title" "HTML Title" "https://x.example" = "OG Title" ∧
    ("HTML Title" : String) ≠ "OG Title" :=
  ⟨rfl, rfl, by decide⟩

/-- C4 (amended): the oEmbed-based handlers (part_001 line 80, part_000
line 107, fetch-article.js line 160) compute exactly the claimed chain
oEmbed title, og:title, trimmed title text, raw url; the analyze.js
variants consult the title tag first (the first variant skips og:title
entirely), and in every variant a document with no title sources yields
the raw input URL. -/
theorem C4_title_chain_amended :
    (∀ (yt : String) (d : Doc) (url : String),
      Part001.title yt d url = claimedTitleChain yt d.ogTitle d.titleText url) ∧
    (∀ (ytData : Oembed) (d : Doc) (url : String),
      Part000.title ytData d url
          = claimedTitleChain ytData.title d.ogTitle d.titleText url ∧
      FetchArticleV2.title ytData d url
          = claimedTitleChain ytData.title d.ogTitle d.titleText url) ∧
    (∀ (d : Doc) (url : String), jsTrim d.titleText = "" → d.ogTitle = "" →
      AnalyzeV2.title d url = url) ∧
    (∀ (d : Doc) (url : String), jsTrim d.titleText = "" →
      AnalyzeV1.title d url = url) := by
  refine ⟨fun yt d url => rfl, fun ytData d url => ⟨rfl, rfl⟩, ?_, ?_⟩
  · intro d url h1 h2
    simp [AnalyzeV2.title, jsOr, h1, h2]
  · intro d url h1
    simp [AnalyzeV1.title, jsOr, h1]

/-- C4 (witness): the amended statement at the empty document. -/
theorem C4_amended_witness :
    jsTrim ({} : Doc).titleText = "" ∧ ({} : Doc).ogTitle = "" ∧
    AnalyzeV2.title {} "https://u.example" = "https://u.example" :=
  ⟨rfl, rfl, C4_title_chain_amended.2.2.1 {} "https://u.example" rfl rfl⟩

/-! ## Claim C5: deduplication of the images array -/

/-- C5 (counterexample): the image-collection loop of the second
fetch-article.js variant (lines 138-155) pushes every candidate without
any equality check, so a document with two identical image sources yields
an images array with two equal URLs in both the collected list and the
response body. -/
theorem C5_counterexample :
    FetchArticleV2.productImages
        (FetchArticleV2.imageOf idResolve {} { imgs := dupImgs })
        (FetchArticleV2.collectImages idResolve dupImgs)
      = ["https://x.example/a.png", "https://x.example/a.png"] ∧
    ¬ (["https://x.example/a.png", "https://x.example/a.png"] : List String).Nodup ∧
    lookupLast (FetchArticleV2.fallbackBody "https://x.example" idResolve noMatch {}
        { imgs := dupImgs } "1/1/2026") "images"
      = some (JVal.arr [jstr "https://x.example/a.png",
                        jstr "https://x.example/a.png"]) :=
  ⟨rfl, by decide, rfl⟩

/-- C5 (amended): only the primary image is deduplicated: when it is
non-empty it is placed first and every candidate equal to it is filtered
out, so it occurs exactly once; candidates distinct from the primary are
not deduplicated among themselves and may repeat. -/
theorem C5_primary_dedup_amended :
    ∀ (image : String) (collected : List String), image ≠ "" →
      FetchArticleV2.productImages image collected
        = image :: (collected.filter (fun u => u != image)).take 5 ∧
      image ∉ (collected.filter (fun u => u != image)).take 5 := by
  intro image collected h
  constructor
  · unfold FetchArticleV2.productImages
    rw [if_neg h]
    rfl
  · intro hmem
    have h1 : image ∈ collected.filter (fun u => u != image) :=
      List.take_subset _ _ hmem
    have h2 := (List.mem_filter.mp h1).2
    simp at h2

/-- C5 (witness): the amended statement at a concrete primary image and
candidate list. -/
theorem C5_amended_witness :
    ("https://x.example/p.png" : String) ≠ "" ∧
    FetchArticleV2.productImages "https://x.example/p.png"
        ["https://x.example/p.png", "https://x.example/q.png"]
      = ["https://x.example/p.png", "https://x.example/q.png"] := by
  have h := (C5_primary_dedup_amended "https://x.example/p.png"
    ["https://x.example/p.png", "https://x.example/q.png"] (by decide)).1
  rw [h]
  exact ⟨by decide, by decide⟩

/-! ## Claim C8: spread of the AI object and usedModel -/

/-- C8 (confirmed): on the AI-success path of analyze.js (lines 121-130)
and part_000 (lines 179-188), the parsed AI object is spread after the
scraped fields, so every shared key takes the AI value, and usedModel is
assigned after the spread, so it equals the resolved requested model name
whatever the AI returned. -/
theorem C8_ai_spread_overrides :
    (∀ (url apiKey userModel today statusText : String) (status : Nat) (d : Doc)
        (resolve : String → Option String) (aiData : List (String × JVal)),
      url ≠ "" → apiKey ≠ "" →
      (AnalyzeV1.handler "POST" url apiKey userModel (.got true status statusText d)
          resolve (.success aiData) today).status = 200 ∧
      (∀ k ∈ (["title", "content", "image", "videoEmbed", "originalDescription",
          "date"] : List String), ∀ v, lookupLast aiData k = some v →
        lookupLast (AnalyzeV1.handler "POST" url apiKey userModel
            (.got true status statusText d) resolve (.success aiData) today).body k
          = some v) ∧
      lookupLast (AnalyzeV1.handler "POST" url apiKey userModel
          (.got true status statusText d) resolve (.success aiData) today).body
          "usedModel"
        = some (jstr (AnalyzeV1.modelName userModel))) ∧
    (∀ (url apiKey userModel today statusText : String) (status : Nat) (d : Doc)
        (oembedRes : Option Oembed) (resolve ytIdMatch : String → Option String)
        (aiData : List (String × JVal)),
      url ≠ "" → apiKey ≠ "" →
      (Part000.handler "POST" url apiKey userModel oembedRes
          (.got true status statusText d) resolve ytIdMatch (.success aiData)
          today).status = 200 ∧
      (∀ k ∈ (["title", "content", "image", "videoEmbed", "originalDescription",
          "date"] : List String), ∀ v, lookupLast aiData k = some v →
        lookupLast (Part000.handler "POST" url apiKey userModel oembedRes
            (.got true status statusText d) resolve ytIdMatch (.success aiData)
            today).body k
          = some v) ∧
      lookupLast (Part000.handler "POST" url apiKey userModel oembedRes
          (.got true status statusText d) resolve ytIdMatch (.success aiData)
          today).body "usedModel"
        = some (jstr (AnalyzeV1.modelName userModel))) := by
  constructor
  · intro url apiKey userModel today statusText status d resolve aiData hurl hkey
    have he : AnalyzeV1.handler "POST" url apiKey userModel
        (.got true status statusText d) resolve (.success aiData) today
        = ⟨200, AnalyzeV1.aiBody url userModel resolve d today aiData⟩ := by
      simp [AnalyzeV1.handler, hurl, hkey]
    rw [he]
    refine ⟨rfl, ?_, ?_⟩
    · intro k hk v hv
      have hk' : k ≠ "usedModel" := by fin_cases hk <;> decide
      simp only [AnalyzeV1.aiBody]
      exact lookupLast_spread _ _ _ _ _ hk' hv
    · simp only [AnalyzeV1.aiBody]
      exact lookupLast_concat _ _ _
  · intro url apiKey userModel today statusText status d oembedRes resolve ytIdMatch
      aiData hurl hkey
    have he : Part000.handler "POST" url apiKey userModel oembedRes
        (.got true status statusText d) resolve ytIdMatch (.success aiData) today
        = ⟨200, Part000.aiBody url userModel resolve ytIdMatch
            (if isYoutube (fullUrlOf url) then oembedRes.getD {} else {}) d today
            aiData⟩ := by
      simp [Part000.handler, hurl, hkey]
    rw [he]
    refine ⟨rfl, ?_, ?_⟩
    · intro k hk v hv
      have hk' : k ≠ "usedModel" := by fin_cases hk <;> decide
      simp only [Part000.aiBody]
      exact lookupLast_spread _ _ _ _ _ hk' hv
    · simp only [Part000.aiBody]
      exact lookupLast_concat _ _ _

/-- C8 (witness): the statement at a concrete AI object carrying a title. -/
theorem C8_witness :
    ("https://x.example" : String) ≠ "" ∧ ("key" : String) ≠ "" ∧
    lookupLast [("title", jstr "AI Title")] "title" = some (jstr "AI Title") ∧
    lookupLast (AnalyzeV1.handler "POST" "https://x.example" "key" ""
        (.got true 200 "OK" {}) idResolve (.success [("title", jstr "AI Title")])
        "1/1/2026").body "title" = some (jstr "AI Title") ∧
    lookupLast (AnalyzeV1.handler "POST" "https://x.example" "key" ""
        (.got true 200 "OK" {}) idResolve (.success [("title", jstr "AI Title")])
        "1/1/2026").body "usedModel" = some (jstr (AnalyzeV1.modelName "")) := by
  have h := C8_ai_spread_overrides.1 "https://x.example" "key" "" "1/1/2026" "OK"
    200 {} idResolve [("title", jstr "AI Title")] (by decide) (by decide)
  exact ⟨by decide, by decide, rfl,
    h.2.1 "title" (by decide) (jstr "AI Title") rfl, h.2.2⟩

theorem part000_fallbackCategory_mem (u : String) :
    Part000.fallbackCategory u
      ∈ (["Videos", "Coding", "Shopping", "Articles"] : List String) := by
  unfold Part000.fallbackCategory
  split
  · simp
  · split
    · simp
    · split <;> simp

theorem analyzeV1_fallbackCategory_mem (u : String) :
    AnalyzeV1.fallbackCategory u
      ∈ (["Videos", "Coding", "Shopping", "Articles"] : List String) := by
  unfold AnalyzeV1.fallbackCategory
  split
  · simp
  · split
    · simp
    · split <;> simp

/-! ## Claim C2: graceful degradation on AI failure -/

/-- C2 (confirmed): when the primary fetch succeeds, an API key is given
and the AI block throws or yields unparseable JSON, both part_000 and the
first analyze.js variant fall through to the manual path and answer 200
with usedModel Manual Fallback, a non-empty title and content, a category
from the fixed set, and populated readingTime, difficulty and tags. -/
theorem C2_ai_failure_graceful :
    ∀ (url apiKey userModel today statusText : String) (status : Nat) (d : Doc)
      (oembedRes : Option Oembed) (resolve ytIdMatch : String → Option String)
      (outP outA : HttpOut),
      url ≠ "" → apiKey ≠ "" →
      outP = Part000.handler "POST" url apiKey userModel oembedRes
        (.got true status statusText d) resolve ytIdMatch .failure today →
      outA = AnalyzeV1.handler "POST" url apiKey userModel
        (.got true status statusText d) resolve .failure today →
      (outP.status = 200 ∧
       lookupLast outP.body "usedModel" = some (jstr "Manual Fallback") ∧
       (∃ t, lookupLast outP.body "title" = some (jstr t) ∧ t ≠ "") ∧
       (∃ c, lookupLast outP.body "content" = some (jstr c) ∧ c ≠ "") ∧
       (∃ cat, lookupLast outP.body "category" = some (jstr cat) ∧
         cat ∈ (["Videos", "Coding", "Shopping", "Articles"] : List String)) ∧
       lookupLast outP.body "readingTime" = some (jstr "5 min") ∧
       lookupLast outP.body "difficulty" = some (jstr "Medium") ∧
       (∃ ts, lookupLast outP.body "tags" = some (JVal.arr ts) ∧ ts ≠ [])) ∧
      (outA.status = 200 ∧
       lookupLast outA.body "usedModel" = some (jstr "Manual Fallback") ∧
       (∃ t, lookupLast outA.body "title" = some (jstr t) ∧ t ≠ "") ∧
       (∃ c, lookupLast outA.body "content" = some (jstr c) ∧ c ≠ "") ∧
       (∃ cat, lookupLast outA.body "category" = some (jstr cat) ∧
         cat ∈ (["Videos", "Coding", "Shopping", "Articles"] : List String)) ∧
       lookupLast outA.body "readingTime" = some (jstr "5 min") ∧
       lookupLast outA.body "difficulty" = some (jstr "Medium") ∧
       (∃ ts, lookupLast outA.body "tags" = some (JVal.arr ts) ∧ ts ≠ [])) := by
  intro url apiKey userModel today statusText status d oembedRes resolve ytIdMatch
    outP outA hurl hkey hP hA
  have heP : outP = ⟨200, Part000.fallbackBody url resolve ytIdMatch
      (if isYoutube (fullUrlOf url) then oembedRes.getD {} else {}) d today⟩ := by
    rw [hP]
    simp [Part000.handler, hurl, hkey]
  have heA : outA = ⟨200, AnalyzeV1.fallbackBody url resolve d today⟩ := by
    rw [hA]
    simp [AnalyzeV1.handler, hurl, hkey]
  rw [heP, heA]
  constructor
  · refine ⟨rfl, rfl, ⟨_, rfl, ?_⟩, ⟨_, rfl, ?_⟩, ⟨_, rfl, ?_⟩, rfl, rfl,
      ⟨_, rfl, ?_⟩⟩
    · unfold Part000.title
      exact jsOr_ne_empty _ _ (jsOr_ne_empty _ _ (jsOr_ne_empty _ _ hurl))
    · unfold Part000.contentHtml
      exact jsOr_ne_empty _ _ (jsOr_ne_empty _ _ (jsOr_ne_empty _ _ (by decide)))
    · exact part000_fallbackCategory_mem _
    · simp
  · refine ⟨rfl, rfl, ⟨_, rfl, ?_⟩, ⟨_, rfl, ?_⟩, ⟨_, rfl, ?_⟩, rfl, rfl,
      ⟨_, rfl, ?_⟩⟩
    · unfold AnalyzeV1.title
      exact jsOr_ne_empty _ _ hurl
    · unfold AnalyzeV1.contentHtml
      exact jsOr_ne_empty _ _ (jsOr_ne_empty _ _ (jsOr_ne_empty _ _ (by decide)))
    · exact analyzeV1_fallbackCategory_mem _
    · simp

/-- C2 (witness): the statement at a concrete successful fetch with a key
and a failing AI call. -/
theorem C2_witness :
    ("https://example.org" : String) ≠ "" ∧ ("key" : String) ≠ "" ∧
    (Part000.handler "POST" "https://example.org" "key" "" none
        (.got true 200 "OK" {}) idResolve noMatch .failure "1/1/2026").status
      = 200 ∧
    lookupLast (Part000.handler "POST" "https://example.org" "key" "" none
        (.got true 200 "OK" {}) idResolve noMatch .failure "1/1/2026").body
        "usedModel" = some (jstr "Manual Fallback") := by
  have h := C2_ai_failure_graceful "https://example.org" "key" "" "1/1/2026" "OK"
    200 {} none idResolve noMatch _ _ (by decide) (by decide) rfl rfl
  exact ⟨by decide, by decide, h.1.1, h.1.2.1⟩

theorem priceLoop_append_of_some (sels more : List PriceSel) (es : List Elem)
    (v : String) (h : priceLoop sels es = some v) :
    priceLoop (sels ++ more) es = some v := by
  induction sels with
  | nil => simp [priceLoop] at h
  | cons s rest ih =>
    rw [List.cons_append]
    unfold priceLoop at h ⊢
    by_cases hp : firstSelText s es = ""
    · rw [if_pos hp] at h ⊢
      exact ih h
    · rw [if_neg hp] at h ⊢
      exact h

/-! ## Claim C10: unconditional price extraction -/

/-- C10 (counterexample): part_000 runs the price selectors before the
junk-removal pass (lines 74-82 precede line 105), so on a document whose
first price element sits inside a nav bar the scraped price differs from
the first non-empty trimmed price-selector text of the sanitized DOM that
the claim describes — even though the claim is right that the loop runs
for a YouTube-classified page. -/
theorem C10_counterexample :
    lookupLast (Part000.scrapedMetadata "https://www.youtube.com/watch?v=abc" {}
        { elems := navPriceElems }) "price" = some (jstr "$1") ∧
    claimedSanitizedPrice navPriceElems = some "$2" ∧
    ("$1" : String) ≠ "$2" :=
  ⟨rfl, rfl, by decide⟩

/-- Membership helper: no entry of the GitHub/YouTube prefix of the
scraped-metadata object carries the price key. -/
theorem scraped_prefix_keys (b1 b2 : Bool) (s1 s2 s3 s4 : String) :
    ∀ pr ∈ ((if b1 = true then
        optField "stars" s1 ++ optField "forks" s2 ++ optField "author" s3
          ++ [("platform", jstr "GitHub")]
      else []) ++
      (if b2 = true then
        optField "author" s4 ++ [("platform", jstr "YouTube")]
      else [])),
      pr.1 ≠ "price" := by
  intro pr hpr
  rcases List.mem_append.mp hpr with h | h
  · split at h
    · rcases List.mem_append.mp h with h | h
      · rcases List.mem_append.mp h with h | h
        · rcases List.mem_append.mp h with h | h
          · rw [mem_optField h]; decide
          · rw [mem_optField h]; decide
        · rw [mem_optField h]; decide
      · simp at h
        subst h
        decide
    · simp at h
  · split at h
    · rcases List.mem_append.mp h with h | h
      · rw [mem_optField h]; decide
      · simp at h
        subst h
        decide
    · simp at h

/-- C10 (amended): price extraction is applied to every page regardless of
platform classification in both variants; part_000 evaluates its four
selectors on the document before sanitization, while the second
fetch-article.js variant evaluates its five selectors (the four of the
claim plus product-price, last) on the sanitized DOM, so whenever the
claimed four-selector sanitized lookup finds a value, that variant scrapes
exactly that value. -/
theorem C10_price_scrape_amended :
    (∀ (fullUrl : String) (ytData : Oembed) (d : Doc),
      lookupLast (Part000.scrapedMetadata fullUrl ytData d) "price"
        = (priceLoop part000PriceSelectors d.elems).map jstr) ∧
    (∀ (fullUrl : String) (ytData : Oembed) (d : Doc),
      lookupLast (FetchArticleV2.scrapedMetadata fullUrl ytData d) "price"
        = (priceLoop fetchArticleV2PriceSelectors (removeJunk d.elems)).map jstr) ∧
    (∀ (es : List Elem) (v : String),
      claimedSanitizedPrice es = some v →
      priceLoop fetchArticleV2PriceSelectors (removeJunk es) = some v) := by
  refine ⟨?_, ?_, ?_⟩
  · intro fullUrl ytData d
    unfold Part000.scrapedMetadata
    cases hpl : priceLoop part000PriceSelectors d.elems with
    | some p =>
      simp only [hpl]
      exact lookupLast_concat _ _ _
    | none =>
      simp only [hpl]
      rw [show Option.map jstr none = (none : Option JVal) from rfl]
      rw [lookupLast_eq_none_iff]
      intro pr hpr
      rcases List.mem_append.mp hpr with h | h
      · exact scraped_prefix_keys _ _ _ _ _ _ pr h
      · simp at h
  · intro fullUrl ytData d
    unfold FetchArticleV2.scrapedMetadata
    cases hpl : priceLoop fetchArticleV2PriceSelectors (removeJunk d.elems) with
    | some p =>
      simp only [hpl]
      exact lookupLast_concat _ _ _
    | none =>
      simp only [hpl]
      rw [show Option.map jstr none = (none : Option JVal) from rfl]
      rw [lookupLast_eq_none_iff]
      intro pr hpr
      rcases List.mem_append.mp hpr with h | h
      · exact scraped_prefix_keys _ _ _ _ _ _ pr h
      · simp at h
  · intro es v h
    have hsel : fetchArticleV2PriceSelectors
        = part000PriceSelectors ++ [PriceSel.productPrice] := rfl
    rw [hsel]
    exact priceLoop_append_of_some _ _ _ _ h

/-- C10 (witness): the amended statement at the nav-price document. -/
theorem C10_amended_witness :
    claimedSanitizedPrice navPriceElems = some "$2" ∧
    priceLoop fetchArticleV2PriceSelectors (removeJunk navPriceElems) = some "$2" :=
  ⟨rfl, C10_price_scrape_amended.2.2 navPriceElems "$2" rfl⟩
